import Mathlib

/-!
Shallow embedding of the EcoCommute ride-coordination core
(src/rides/models.py and src/rides/views.py).

Users are identified by natural-number ids.  A `RideState` bundles one
`Ride` row together with its `RidePassenger` records, which is all the
state the capacity and lifecycle operations touch.  Live locations are
an association list keyed by user id (the model declares the user field
OneToOne, so at most one row per user).  Python ints become `Int`,
float arithmetic in the emission calculator is carried out over `ℚ`,
and each Django view that mutates state becomes a function returning
`Except` of an error enum mirroring the view branches.
-/

/-- Ride.ride_status: choices created / started / completed (models.py). -/
inductive RideStatus where
  | created
  | started
  | completed
deriving DecidableEq, Repr

/-- Position of a status along the lifecycle, for monotonicity statements. -/
def statusIdx : RideStatus → Nat
  | .created => 0
  | .started => 1
  | .completed => 2

/-- The Ride row fields used by the coordination core (models.py, class Ride). -/
structure Ride where
  id : Nat
  creator : Nat
  total_seats : Int
  seats_available : Int
  driver_started : Bool
  passenger_started : Bool
  driver_ended : Bool
  passenger_ended : Bool
  ride_status : RideStatus
  distance_km : ℚ
  vehicle_type : String
deriving DecidableEq, Repr

/-- A RidePassenger record of the ride (models.py, class RidePassenger);
the ride foreign key is implicit because a `RideState` holds one ride. -/
structure Passenger where
  user : Nat
  pickup_point : String
  pickup_notes : String
deriving DecidableEq, Repr

/-- One ride together with its RidePassenger records. -/
structure RideState where
  ride : Ride
  passengers : List Passenger
deriving DecidableEq, Repr

/-- Python str.strip() on the underlying character list: drop leading
and trailing whitespace. -/
def stripChars (l : List Char) : List Char :=
  ((l.dropWhile Char.isWhitespace).reverse.dropWhile Char.isWhitespace).reverse

/-- Python str.strip() as used on POST fields before emptiness checks. -/
def strip (s : String) : String := String.mk (stripChars s.data)

/-- RidePassenger.objects.filter(ride=ride, user=user).exists(). -/
def isPassenger (st : RideState) (u : Nat) : Bool :=
  st.passengers.any (fun rec => rec.user == u)

/-- EMISSION_FACTORS dict (models.py): g CO2 per km by vehicle type. -/
def EMISSION_FACTORS : String → Option ℚ :=
  fun vt => if vt == "car_petrol" then some 120 else if vt == "bike" then some 0 else none

/-- calculate_co2 (views.py): factor defaults to car_petrol; returns
(solo_kg, shared_kg, saved_per_user). -/
def calculate_co2 (distance_km : ℚ) (vehicle_type : String) (occupants : Int) :
    ℚ × ℚ × ℚ :=
  let factor := (EMISSION_FACTORS vehicle_type).getD 120
  let solo_kg := distance_km * factor / 1000
  let occ : Int := max occupants 1
  let shared_kg := solo_kg / (occ : ℚ)
  let saved_per_user := solo_kg - shared_kg
  (solo_kg, shared_kg, saved_per_user)

/-- Ride.occupant_count (models.py): max(total_seats - seats_available, 1). -/
def occupant_count (r : Ride) : Int :=
  max (r.total_seats - r.seats_available) 1

/-- Failure branches of the create_ride view (views.py). -/
inductive CreateError where
  | notVerified
  | missingVehicleNumber
  | invalidSeats
deriving DecidableEq, Repr

/-- create_ride view (views.py), POST path, with inputs already parsed
(the date/time/float/int parsing of the HTTP layer is out of scope).
Checks: aadhaar verification, vehicle number nonempty, total_seats >= 1;
then creates the ride with seats_available = max(total_seats - 1, 0). -/
def create_ride (verified : Bool) (creator : Nat) (rid : Nat)
    (total_seats : Int) (distance_km : ℚ) (vehicle_type vehicle_number : String) :
    Except CreateError RideState :=
  if !verified then .error .notVerified
  else if strip vehicle_number == "" then .error .missingVehicleNumber
  else if total_seats < 1 then .error .invalidSeats
  else .ok
    { ride :=
        { id := rid
          creator := creator
          total_seats := total_seats
          seats_available := max (total_seats - 1) 0
          driver_started := false
          passenger_started := false
          driver_ended := false
          passenger_ended := false
          ride_status := .created
          distance_km := distance_km
          vehicle_type := vehicle_type }
      passengers := [] }

/-- Failure branches of the join_ride view (views.py). -/
inductive JoinError where
  | notVerified
  | isDriver
  | noSeats
  | alreadyJoined
  | missingPickup
deriving DecidableEq, Repr

/-- join_ride view (views.py), POST path.  Checks, in source order:
aadhaar verification, creator self-join, seats_available <= 0, existing
RidePassenger, empty pickup point; then decrements seats_available and
creates the RidePassenger record (the outbound email is fire-and-forget
and never affects the result). -/
def join_ride (st : RideState) (actor : Nat) (verified : Bool)
    (pickup_point pickup_notes : String) : Except JoinError RideState :=
  if !verified then .error .notVerified
  else if st.ride.creator == actor then .error .isDriver
  else if st.ride.seats_available ≤ 0 then .error .noSeats
  else if isPassenger st actor then .error .alreadyJoined
  else if strip pickup_point == "" then .error .missingPickup
  else .ok
    { ride := { st.ride with seats_available := st.ride.seats_available - 1 }
      passengers :=
        st.passengers ++ [{ user := actor
                            pickup_point := strip pickup_point
                            pickup_notes := strip pickup_notes }] }

/-- Removes the first list element satisfying the predicate, mirroring
passenger.delete() on the record returned by .first(). -/
def removeFirst (p : α → Bool) : List α → List α
  | [] => []
  | x :: xs => if p x then xs else x :: removeFirst p xs

/-- Failure branch of the leave_ride view (views.py). -/
inductive LeaveError where
  | notJoined
deriving DecidableEq, Repr

/-- leave_ride view (views.py), POST path (cancel_ride is identical up to
the redirect target): fails if no RidePassenger record exists for the
user; otherwise deletes that record and increments seats_available. -/
def leave_ride (st : RideState) (actor : Nat) : Except LeaveError RideState :=
  match st.passengers.find? (fun rec => rec.user == actor) with
  | none => .error .notJoined
  | some _ => .ok
      { ride := { st.ride with seats_available := st.ride.seats_available + 1 }
        passengers := removeFirst (fun rec => rec.user == actor) st.passengers }

/-- Failure branches shared by the four confirmation views (views.py). -/
inductive ConfError where
  | wrongRole
  | wrongStatus
  | alreadyConfirmed
deriving DecidableEq, Repr

/-- Ride.check_and_update_status (models.py): if both start confirmations
are set while the status is created, move to started and stop; else if
both end confirmations are set while the status is started, move to
completed; else leave the ride unchanged. -/
def check_and_update_status (r : Ride) : Ride :=
  if r.driver_started && r.passenger_started && r.ride_status == .created then
    { r with ride_status := .started }
  else if r.driver_ended && r.passenger_ended && r.ride_status == .started then
    { r with ride_status := .completed }
  else r

/-- driver_start_ride view (views.py): creator only, status must be
created, driver_started must be false; sets driver_started then runs
check_and_update_status. -/
def driver_start_ride (st : RideState) (actor : Nat) : Except ConfError RideState :=
  if st.ride.creator ≠ actor then .error .wrongRole
  else if st.ride.ride_status ≠ .created then .error .wrongStatus
  else if st.ride.driver_started then .error .alreadyConfirmed
  else .ok { st with ride := check_and_update_status { st.ride with driver_started := true } }

/-- passenger_confirm_start view (views.py): passengers only, status must
be created, passenger_started must be false; sets passenger_started then
runs check_and_update_status. -/
def passenger_confirm_start (st : RideState) (actor : Nat) : Except ConfError RideState :=
  if !isPassenger st actor then .error .wrongRole
  else if st.ride.ride_status ≠ .created then .error .wrongStatus
  else if st.ride.passenger_started then .error .alreadyConfirmed
  else .ok { st with ride := check_and_update_status { st.ride with passenger_started := true } }

/-- driver_end_ride view (views.py): creator only, status must be
started, driver_ended must be false; sets driver_ended then runs
check_and_update_status. -/
def driver_end_ride (st : RideState) (actor : Nat) : Except ConfError RideState :=
  if st.ride.creator ≠ actor then .error .wrongRole
  else if st.ride.ride_status ≠ .started then .error .wrongStatus
  else if st.ride.driver_ended then .error .alreadyConfirmed
  else .ok { st with ride := check_and_update_status { st.ride with driver_ended := true } }

/-- passenger_confirm_arrival view (views.py): passengers only, status
must be started, passenger_ended must be false; sets passenger_ended then
runs check_and_update_status. -/
def passenger_confirm_arrival (st : RideState) (actor : Nat) : Except ConfError RideState :=
  if !isPassenger st actor then .error .wrongRole
  else if st.ride.ride_status ≠ .started then .error .wrongStatus
  else if st.ride.passenger_ended then .error .alreadyConfirmed
  else .ok { st with ride := check_and_update_status { st.ride with passenger_ended := true } }

/-- The four confirmation endpoints, as one alphabet of events. -/
inductive ConfOp where
  | driverStart
  | passengerStart
  | driverEnd
  | passengerEnd
deriving DecidableEq, Repr

/-- Dispatch one confirmation call to the corresponding view. -/
def runConf (op : ConfOp) (st : RideState) (actor : Nat) : Except ConfError RideState :=
  match op with
  | .driverStart => driver_start_ride st actor
  | .passengerStart => passenger_confirm_start st actor
  | .driverEnd => driver_end_ride st actor
  | .passengerEnd => passenger_confirm_arrival st actor

/-- State after one confirmation call: an erroring view returns without
saving, so the state is unchanged. -/
def confStep (op : ConfOp) (actor : Nat) (st : RideState) : RideState :=
  match runConf op st actor with
  | .ok st2 => st2
  | .error _ => st

/-- State after a sequence of confirmation calls (op, actor). -/
def runConfSeq (ops : List (ConfOp × Nat)) (st : RideState) : RideState :=
  match ops with
  | [] => st
  | (op, a) :: rest => runConfSeq rest (confStep op a st)

/-- Which confirmation flag a call re-checks (the "already confirmed"
guard of each view). -/
def confFlag (op : ConfOp) (r : Ride) : Bool :=
  match op with
  | .driverStart => r.driver_started
  | .passengerStart => r.passenger_started
  | .driverEnd => r.driver_ended
  | .passengerEnd => r.passenger_ended

/-- The ride status each confirmation call requires. -/
def confRequiredStatus (op : ConfOp) : RideStatus :=
  match op with
  | .driverStart => .created
  | .passengerStart => .created
  | .driverEnd => .started
  | .passengerEnd => .started

/-- The role each confirmation call requires of its actor. -/
def confRoleOk (op : ConfOp) (st : RideState) (actor : Nat) : Prop :=
  match op with
  | .driverStart => st.ride.creator = actor
  | .passengerStart => isPassenger st actor = true
  | .driverEnd => st.ride.creator = actor
  | .passengerEnd => isPassenger st actor = true

/-- A LiveLocation row minus its user key (models.py, class LiveLocation);
the user field is OneToOne, so rows live in a list keyed by user id. -/
structure LiveLocation where
  ride_id : Nat
  latitude : ℚ
  longitude : ℚ
  is_sharing : Bool
deriving DecidableEq, Repr

/-- The LiveLocation table: at most one row per user (OneToOneField). -/
abbrev LocTable := List (Nat × LiveLocation)

/-- LiveLocation.objects row of a given user, if any. -/
def lookupLoc (locs : LocTable) (u : Nat) : Option LiveLocation :=
  (List.find? (fun e => e.1 == u) locs).map Prod.snd

/-- update_or_create keyed on user: replace the existing row of the user
or append a fresh one. -/
def upsertLoc (locs : LocTable) (u : Nat) (loc : LiveLocation) : LocTable :=
  if List.any locs (fun e => e.1 == u) then
    List.map (fun e => if e.1 == u then (u, loc) else e) locs
  else locs ++ [(u, loc)]

/-- Failure branches of update_location and get_location (views.py),
with the HTTP status each view attaches. -/
inductive LocError where
  | missingFields
  | rideNotFound
  | updNotPassenger
  | getNotDriver
  | getNotPassenger
  | notAvailable
deriving DecidableEq, Repr

/-- HTTP status code of each location-endpoint failure (views.py):
400 validation, 403 authorization, 404 not found. -/
def locStatus : LocError → Nat
  | .missingFields => 400
  | .rideNotFound => 404
  | .updNotPassenger => 403
  | .getNotDriver => 403
  | .getNotPassenger => 404
  | .notAvailable => 404

/-- Raw POST body of update_location; a coordinate field is `none` when
it is missing or fails float() parsing (both answered with HTTP 400). -/
structure LocUpdateInput where
  ride_id : Option Nat
  latitude : Option ℚ
  longitude : Option ℚ
  is_sharing : Bool
deriving DecidableEq, Repr

/-- update_location view (views.py): 400 on missing or malformed fields,
404 on unknown ride, 403 when the caller holds no RidePassenger record
on the ride; otherwise update_or_create the single row of the caller. -/
def update_location (st : RideState) (actor : Nat) (inp : LocUpdateInput)
    (locs : LocTable) : Except LocError LocTable :=
  match inp.ride_id, inp.latitude, inp.longitude with
  | some rid, some lat, some lon =>
    if rid ≠ st.ride.id then .error .rideNotFound
    else if !isPassenger st actor then .error .updNotPassenger
    else .ok (upsertLoc locs actor
      { ride_id := rid, latitude := lat, longitude := lon, is_sharing := inp.is_sharing })
  | _, _, _ => .error .missingFields

/-- get_location view (views.py): 403 unless the requester is the ride
creator, 404 when the target is not a passenger of the ride, then
LiveLocation.objects.get(user=target, ride=ride, is_sharing=True),
answering 404 when no such row exists. -/
def get_location (st : RideState) (requester target : Nat) (locs : LocTable) :
    Except LocError LiveLocation :=
  if st.ride.creator ≠ requester then .error .getNotDriver
  else if !isPassenger st target then .error .getNotPassenger
  else
    match lookupLoc locs target with
    | some loc =>
      if loc.ride_id == st.ride.id && loc.is_sharing then .ok loc
      else .error .notAvailable
    | none => .error .notAvailable

/-!
Interleaved model of join_ride, for the concurrency requirement.
A Django request handler first loads its own copy of the Ride row
(get_object_or_404) and then runs the checks and the write against that
copy; only the RidePassenger existence check is a fresh query.  The
commit phase below therefore takes the snapshot the handler loaded,
while reading the passenger table and writing the seat count on the
shared state.  `joinCommit st st.ride ...` coincides with the
sequential `join_ride`.
-/

/-- The checks and write of join_ride run against a previously loaded
snapshot of the ride row: creator and seat checks use the snapshot, the
RidePassenger existence check queries the shared table, and .save()
writes the whole stale row back with seats decremented. -/
def joinCommit (st : RideState) (snap : Ride) (actor : Nat) (verified : Bool)
    (pickup_point pickup_notes : String) : RideState × Bool :=
  if !verified then (st, false)
  else if snap.creator == actor then (st, false)
  else if snap.seats_available ≤ 0 then (st, false)
  else if isPassenger st actor then (st, false)
  else if strip pickup_point == "" then (st, false)
  else
    ({ ride := { snap with seats_available := snap.seats_available - 1 }
       passengers :=
         st.passengers ++ [{ user := actor
                             pickup_point := strip pickup_point
                             pickup_notes := strip pickup_notes }] }, true)

/-- Ride states reachable by a create_ride followed by any sequence of
successful join_ride and leave_ride calls. -/
inductive Reach : RideState → Prop where
  | base (v : Bool) (c rid : Nat) (ts : Int) (d : ℚ) (vt vn : String) (st : RideState)
      (h : create_ride v c rid ts d vt vn = .ok st) : Reach st
  | join (st : RideState) (a : Nat) (v : Bool) (pp pn : String) (st2 : RideState)
      (hr : Reach st) (h : join_ride st a v pp pn = .ok st2) : Reach st2
  | leave (st : RideState) (a : Nat) (st2 : RideState) (hr : Reach st)
      (h : leave_ride st a = .ok st2) : Reach st2

/-- The emission formula exactly as the specification words it:
solo = distanceKm x factor / 1000, occupants clamped to at least 1,
shared = solo / occupants, saved = solo - shared. -/
def co2_spec (distance_km factor : ℚ) (occupants : Int) : ℚ × ℚ × ℚ :=
  let solo := distance_km * factor / 1000
  let occ : ℚ := max (occupants : ℚ) 1
  (solo, solo / occ, solo - solo / occ)

/-- A concrete two-seat ride by creator 0 with one free seat and no
passengers, as produced by create_ride with total_seats = 2. -/
def exRide2 : Ride :=
  { id := 7, creator := 0, total_seats := 2, seats_available := 1,
    driver_started := false, passenger_started := false,
    driver_ended := false, passenger_ended := false,
    ride_status := .created, distance_km := 12, vehicle_type := "car_petrol" }

/-- The concrete two-seat ride bundled with an empty passenger table. -/
def exSt2 : RideState := { ride := exRide2, passengers := [] }

/-- The concrete ride after user 1 joined with pickup point A. -/
def exSt2J : RideState :=
  { ride := { exRide2 with seats_available := 0 }
    passengers := [{ user := 1, pickup_point := "A", pickup_notes := "" }] }

/-- A profile table in which nobody is aadhaar-verified. -/
def allUnverified : Nat → Bool := fun _ => false

/-- A full run of the confirmation protocol on the concrete ride: driver
and passenger confirm the start, then both confirm the end. -/
def exConfOps : List (ConfOp × Nat) :=
  [(.driverStart, 0), (.passengerStart, 1), (.driverEnd, 0), (.passengerEnd, 1)]

/-- A four-seat ride with one joined passenger: seats went 3 -> 2. -/
def exRide4one : Ride :=
  { exRide2 with total_seats := 4, seats_available := 2 }

/-- A four-seat ride with three joined passengers: seats went 3 -> 0. -/
def exRide4three : Ride :=
  { exRide2 with total_seats := 4, seats_available := 0 }

/-!  Helper lemmas  -/

theorem length_removeFirst (p : α → Bool) (l : List α) (x : α)
    (h : l.find? p = some x) : (removeFirst p l).length + 1 = l.length := by
  induction l with
  | nil => simp at h
  | cons y ys ih =>
    by_cases hy : p y
    · simp [removeFirst, hy]
    · simp only [List.find?, hy] at h
      simp [removeFirst, hy, ih h]

theorem reach_invariant (st : RideState) (h : Reach st) :
    0 ≤ st.ride.seats_available ∧ st.ride.seats_available + 1 ≤ st.ride.total_seats ∧
      st.ride.total_seats - st.ride.seats_available = st.passengers.length + 1 := by
  induction h with
  | base v c rid ts d vt vn st hc =>
    unfold create_ride at hc
    split at hc
    · exact absurd hc (by simp)
    · split at hc
      · exact absurd hc (by simp)
      · split at hc
        · exact absurd hc (by simp)
        · next hts =>
          cases hc
          have hm : max (ts - 1) 0 = ts - 1 := max_eq_left (by omega)
          dsimp only
          rw [hm]
          simp
          omega
  | join st a v pp pn st2 hr h ih =>
    unfold join_ride at h
    split at h
    · exact absurd h (by simp)
    · split at h
      · exact absurd h (by simp)
      · split at h
        · exact absurd h (by simp)
        · next hseats =>
          split at h
          · exact absurd h (by simp)
          · split at h
            · exact absurd h (by simp)
            · cases h
              dsimp only
              simp only [List.length_append, List.length_cons, List.length_nil]
              omega
  | leave st a st2 hr h ih =>
    unfold leave_ride at h
    split at h
    · exact absurd h (by simp)
    · next rec hfind =>
      cases h
      have hlen := length_removeFirst _ _ _ hfind
      dsimp only
      omega

/-- C2 (corrected): in every reachable state, 0 <= seatsAvailable <=
totalSeats, and totalSeats - seatsAvailable equals the number of joined
passengers plus one, the extra seat being the one create_ride deducts
for the driver.  The claim as frozen (totalSeats - seatsAvailable equal
to the passenger count) fails already on a freshly created ride. -/
theorem seat_invariant_reachable (st : RideState) (h : Reach st) :
    0 ≤ st.ride.seats_available ∧ st.ride.seats_available ≤ st.ride.total_seats ∧
      st.ride.total_seats - st.ride.seats_available = st.passengers.length + 1 := by
  obtain ⟨h1, h2, h3⟩ := reach_invariant st h
  exact ⟨h1, by omega, h3⟩

/-- C2 counterexample: create_ride with two total seats yields a
reachable state in which totalSeats - seatsAvailable = 1 although the
ride has zero RidePassenger records, refuting the frozen equation. -/
theorem seat_equation_counterexample :
    create_ride true 0 7 2 12 "car_petrol" "KL07AB1234" = .ok exSt2 ∧
      exSt2.ride.total_seats - exSt2.ride.seats_available = 1 ∧
      exSt2.passengers.length = 0 := by
  refine ⟨by rfl, by decide, by decide⟩

/-- C2 witness: the invariant instantiated at the freshly created ride. -/
theorem seat_invariant_reachable_witness :
    0 ≤ exSt2.ride.seats_available ∧ exSt2.ride.seats_available ≤ exSt2.ride.total_seats ∧
      exSt2.ride.total_seats - exSt2.ride.seats_available = exSt2.passengers.length + 1 :=
  seat_invariant_reachable exSt2
    (Reach.base true 0 7 2 12 "car_petrol" "KL07AB1234" exSt2 (by rfl))

/-- C1 (corrected): for an aadhaar-verified caller and a ride with
non-negative seatsAvailable (true of every reachable state), join_ride
fails exactly when the caller is the creator, seatsAvailable is 0, a
RidePassenger record already exists, or the pickup point is blank; each
cause maps to the error the view raises, and otherwise the call returns
a state with seatsAvailable decremented by one and the RidePassenger
record appended.  The frozen claim additionally needs the verification
hypothesis: an unverified caller is turned away before any of the four
listed checks run. -/
theorem join_ride_characterization (st : RideState) (actor : Nat) (pp pn : String)
    (hseats : 0 ≤ st.ride.seats_available) :
    ((∃ e, join_ride st actor true pp pn = .error e) ↔
      (st.ride.creator = actor ∨ st.ride.seats_available = 0 ∨
        isPassenger st actor = true ∨ strip pp = ""))
    ∧ (st.ride.creator = actor → join_ride st actor true pp pn = .error .isDriver)
    ∧ (st.ride.creator ≠ actor → st.ride.seats_available = 0 →
        join_ride st actor true pp pn = .error .noSeats)
    ∧ (st.ride.creator ≠ actor → st.ride.seats_available ≠ 0 → isPassenger st actor = true →
        join_ride st actor true pp pn = .error .alreadyJoined)
    ∧ (st.ride.creator ≠ actor → st.ride.seats_available ≠ 0 → isPassenger st actor = false →
        strip pp = "" → join_ride st actor true pp pn = .error .missingPickup)
    ∧ (st.ride.creator ≠ actor → st.ride.seats_available ≠ 0 → isPassenger st actor = false →
        strip pp ≠ "" →
        join_ride st actor true pp pn = .ok
          { ride := { st.ride with seats_available := st.ride.seats_available - 1 }
            passengers := st.passengers ++
              [{ user := actor, pickup_point := strip pp, pickup_notes := strip pn }] }) := by
  by_cases hc : st.ride.creator = actor
  · simp [join_ride, hc]
  · by_cases hs : st.ride.seats_available = 0
    · have h0 : st.ride.seats_available ≤ 0 := le_of_eq hs
      simp [join_ride, hc, hs, h0]
    · have h0 : ¬ st.ride.seats_available ≤ 0 := by omega
      by_cases hj : isPassenger st actor
      · simp [join_ride, hc, hs, h0, hj]
      · by_cases hpp : strip pp = ""
        · simp [join_ride, hc, hs, h0, hj, hpp]
        · simp [join_ride, hc, hs, h0, hj, hpp]

/-- C1 witness: on the concrete two-seat ride, user 1 with pickup point
A joins successfully, the seat count drops from 1 to 0 and the record
is appended. -/
theorem join_ride_characterization_witness :
    join_ride exSt2 1 true "A" "" = .ok
      { ride := { exSt2.ride with seats_available := exSt2.ride.seats_available - 1 }
        passengers := exSt2.passengers ++
          [{ user := 1, pickup_point := strip "A", pickup_notes := strip "" }] } :=
  (join_ride_characterization exSt2 1 "A" "" (by decide)).2.2.2.2.2
    (by decide) (by decide) (by decide) (by decide)

/-- C1 counterexample: an unverified, non-creator user with a free seat,
no prior record and a nonempty pickup point is still rejected by
join_ride, so the frozen four-case characterization of failure is not
exhaustive. -/
theorem join_ride_unverified_counterexample :
    join_ride exSt2 1 false "A" "" = .error .notVerified ∧
      exSt2.ride.creator ≠ 1 ∧ exSt2.ride.seats_available ≠ 0 ∧
      isPassenger exSt2 1 = false ∧ strip "A" ≠ "" := by
  refine ⟨by rfl, by decide, by decide, by decide, by decide⟩

/-- C5 (confirmed): leave_ride fails with the not-joined error, changing
nothing, when no RidePassenger record exists for the caller; on success
it removes exactly that record (the passenger count drops by one) and
increments seatsAvailable by exactly one; and in every state reachable
by create/join/leave the seat count stays at most totalSeats. -/
theorem leave_ride_spec :
    (∀ st a, st.passengers.find? (fun rec => rec.user == a) = none →
        leave_ride st a = .error .notJoined)
    ∧ (∀ st a rec, st.passengers.find? (fun rec2 => rec2.user == a) = some rec →
        leave_ride st a = .ok
          { ride := { st.ride with seats_available := st.ride.seats_available + 1 }
            passengers := removeFirst (fun rec2 => rec2.user == a) st.passengers }
        ∧ (removeFirst (fun rec2 => rec2.user == a) st.passengers).length + 1 =
            st.passengers.length)
    ∧ (∀ st, Reach st → st.ride.seats_available ≤ st.ride.total_seats) := by
  refine ⟨?_, ?_, ?_⟩
  · intro st a hnone
    unfold leave_ride
    rw [hnone]
  · intro st a rec hsome
    constructor
    · unfold leave_ride
      rw [hsome]
    · exact length_removeFirst _ _ _ hsome
  · intro st h
    have := reach_invariant st h
    omega

/-- C5 witness: user 1 leaves the full two-seat ride; the record is
deleted and the seat count returns to 1. -/
theorem leave_ride_spec_witness :
    leave_ride exSt2J 1 = .ok
      { ride := { exSt2J.ride with seats_available := exSt2J.ride.seats_available + 1 }
        passengers := removeFirst (fun rec2 => rec2.user == 1) exSt2J.passengers }
    ∧ (removeFirst (fun rec2 => rec2.user == 1) exSt2J.passengers).length + 1 =
        exSt2J.passengers.length :=
  leave_ride_spec.2.1 exSt2J 1 { user := 1, pickup_point := "A", pickup_notes := "" } (by rfl)

theorem confStep_cases (op : ConfOp) (a : Nat) (st : RideState) :
    (confStep op a st).ride.ride_status = st.ride.ride_status ∨
      (st.ride.ride_status = .created ∧ (confStep op a st).ride.ride_status = .started) ∨
      (st.ride.ride_status = .started ∧ (confStep op a st).ride.ride_status = .completed) := by
  cases op <;>
    simp only [confStep, runConf, driver_start_ride, passenger_confirm_start,
      driver_end_ride, passenger_confirm_arrival, check_and_update_status] <;>
    split <;>
    rename_i heq <;>
    (repeat' split at heq) <;>
    first
      | (simp only [Except.ok.injEq] at heq; subst heq; simp_all)
      | simp_all

theorem runConfSeq_mono (ops : List (ConfOp × Nat)) (st : RideState) :
    statusIdx st.ride.ride_status ≤ statusIdx (runConfSeq ops st).ride.ride_status := by
  induction ops generalizing st with
  | nil => exact le_refl _
  | cons p rest ih =>
    obtain ⟨op, a⟩ := p
    have h1 : statusIdx st.ride.ride_status ≤ statusIdx (confStep op a st).ride.ride_status := by
      rcases confStep_cases op a st with h | ⟨ha, hb⟩ | ⟨ha, hb⟩
      · simp [h]
      · simp [ha, hb, statusIdx]
      · simp [ha, hb, statusIdx]
    exact le_trans h1 (ih (confStep op a st))

theorem runConfSeq_pass_started (ops : List (ConfOp × Nat)) (st : RideState)
    (h0 : st.ride.ride_status = .created)
    (hc : (runConfSeq ops st).ride.ride_status = .completed) :
    ∃ n, (runConfSeq (List.take n ops) st).ride.ride_status = .started := by
  induction ops generalizing st with
  | nil =>
    simp only [runConfSeq] at hc
    rw [h0] at hc
    exact absurd hc (by decide)
  | cons p rest ih =>
    obtain ⟨op, a⟩ := p
    rcases confStep_cases op a st with h | ⟨ha, hb⟩ | ⟨ha, hb⟩
    · have h0b : (confStep op a st).ride.ride_status = .created := by rw [h, h0]
      obtain ⟨n, hn⟩ := ih (confStep op a st) h0b hc
      exact ⟨n + 1, hn⟩
    · exact ⟨1, hb⟩
    · rw [h0] at ha
      exact absurd ha (by decide)

theorem confStep_no_jump (op : ConfOp) (a : Nat) (st : RideState)
    (h0 : st.ride.ride_status = .created) :
    (confStep op a st).ride.ride_status ≠ .completed := by
  rcases confStep_cases op a st with h | ⟨ha, hb⟩ | ⟨ha, hb⟩ <;> simp_all

/-- C3 (confirmed): along any sequence of confirmation calls the ride
status only moves forward in the order created, started, completed; a
run that ends completed from a created state passes through a moment
where the status is started; and no single call jumps a created ride
straight to completed. -/
theorem lifecycle_monotonic :
    (∀ ops st, statusIdx st.ride.ride_status ≤ statusIdx (runConfSeq ops st).ride.ride_status)
    ∧ (∀ ops st, st.ride.ride_status = .created →
        (runConfSeq ops st).ride.ride_status = .completed →
        ∃ n, (runConfSeq (List.take n ops) st).ride.ride_status = .started)
    ∧ (∀ op a st, st.ride.ride_status = .created →
        (confStep op a st).ride.ride_status ≠ .completed) :=
  ⟨runConfSeq_mono, runConfSeq_pass_started, confStep_no_jump⟩

/-- C3 witness: the four-call protocol on the concrete ride completes,
and the theorem exhibits the moment the status was started. -/
theorem lifecycle_monotonic_witness :
    ∃ n, (runConfSeq (List.take n exConfOps) exSt2J).ride.ride_status = .started :=
  lifecycle_monotonic.2.1 exConfOps exSt2J (by rfl) (by rfl)

/-- C4 (confirmed): a confirmation call by the right actor whose flag is
already set, or made against the wrong status, fails with the
already-confirmed or wrong-status error and leaves the state untouched;
and from a created ride with both start flags clear, driver and
passenger confirming in either order yields started exactly at the
second call, after which both start confirmations fail with the status
staying started. -/
theorem confirmation_conflict_guards :
    (∀ op st a, confRoleOk op st a →
        (confFlag op st.ride = true ∨ st.ride.ride_status ≠ confRequiredStatus op) →
        (∃ e, runConf op st a = .error e ∧ (e = .wrongStatus ∨ e = .alreadyConfirmed)) ∧
          confStep op a st = st)
    ∧ (∀ st p, st.ride.ride_status = .created → st.ride.driver_started = false →
        st.ride.passenger_started = false → isPassenger st p = true →
        ∃ st1 st2,
          driver_start_ride st st.ride.creator = .ok st1 ∧
          st1.ride.ride_status = .created ∧
          passenger_confirm_start st1 p = .ok st2 ∧
          st2.ride.ride_status = .started ∧
          runConf .driverStart st2 st.ride.creator = .error .wrongStatus ∧
          runConf .passengerStart st2 p = .error .wrongStatus ∧
          confStep .driverStart st.ride.creator st2 = st2 ∧
          confStep .passengerStart p st2 = st2)
    ∧ (∀ st p, st.ride.ride_status = .created → st.ride.driver_started = false →
        st.ride.passenger_started = false → isPassenger st p = true →
        ∃ st1 st2,
          passenger_confirm_start st p = .ok st1 ∧
          st1.ride.ride_status = .created ∧
          driver_start_ride st1 st.ride.creator = .ok st2 ∧
          st2.ride.ride_status = .started ∧
          runConf .driverStart st2 st.ride.creator = .error .wrongStatus ∧
          runConf .passengerStart st2 p = .error .wrongStatus) := by
  refine ⟨?_, ?_, ?_⟩
  · intro op st a hrole hbad
    have hgoal : ∃ e, runConf op st a = .error e ∧ (e = .wrongStatus ∨ e = .alreadyConfirmed) := by
      cases op
      case driverStart =>
        simp only [confRoleOk] at hrole
        simp only [confFlag, confRequiredStatus] at hbad
        by_cases hst : st.ride.ride_status = RideStatus.created
        · have hf : st.ride.driver_started = true := by
            rcases hbad with h | h
            · exact h
            · exact absurd hst h
          exact ⟨.alreadyConfirmed, by simp [runConf, driver_start_ride, hrole, hst, hf],
            Or.inr rfl⟩
        · exact ⟨.wrongStatus, by simp [runConf, driver_start_ride, hrole, hst], Or.inl rfl⟩
      case passengerStart =>
        simp only [confRoleOk] at hrole
        simp only [confFlag, confRequiredStatus] at hbad
        by_cases hst : st.ride.ride_status = RideStatus.created
        · have hf : st.ride.passenger_started = true := by
            rcases hbad with h | h
            · exact h
            · exact absurd hst h
          exact ⟨.alreadyConfirmed, by simp [runConf, passenger_confirm_start, hrole, hst, hf],
            Or.inr rfl⟩
        · exact ⟨.wrongStatus, by simp [runConf, passenger_confirm_start, hrole, hst], Or.inl rfl⟩
      case driverEnd =>
        simp only [confRoleOk] at hrole
        simp only [confFlag, confRequiredStatus] at hbad
        by_cases hst : st.ride.ride_status = RideStatus.started
        · have hf : st.ride.driver_ended = true := by
            rcases hbad with h | h
            · exact h
            · exact absurd hst h
          exact ⟨.alreadyConfirmed, by simp [runConf, driver_end_ride, hrole, hst, hf],
            Or.inr rfl⟩
        · exact ⟨.wrongStatus, by simp [runConf, driver_end_ride, hrole, hst], Or.inl rfl⟩
      case passengerEnd =>
        simp only [confRoleOk] at hrole
        simp only [confFlag, confRequiredStatus] at hbad
        by_cases hst : st.ride.ride_status = RideStatus.started
        · have hf : st.ride.passenger_ended = true := by
            rcases hbad with h | h
            · exact h
            · exact absurd hst h
          exact ⟨.alreadyConfirmed, by simp [runConf, passenger_confirm_arrival, hrole, hst, hf],
            Or.inr rfl⟩
        · exact ⟨.wrongStatus, by simp [runConf, passenger_confirm_arrival, hrole, hst], Or.inl rfl⟩
    obtain ⟨e, he, hor⟩ := hgoal
    exact ⟨⟨e, he, hor⟩, by simp [confStep, he]⟩
  · intro st p hst hd hp hpass
    have hpass2 : st.passengers.any (fun rec => rec.user == p) = true := by
      simpa [isPassenger] using hpass
    refine ⟨{ st with ride := { st.ride with driver_started := true } },
      { st with ride :=
          { st.ride with
              driver_started := true
              passenger_started := true
              ride_status := .started } }, ?_, ?_, ?_, ?_, ?_, ?_, ?_, ?_⟩
    · simp [driver_start_ride, hst, hd, check_and_update_status, hp]
    · exact hst
    · simp [passenger_confirm_start, isPassenger, hpass2, hst, hp, check_and_update_status]
    · rfl
    · simp [runConf, driver_start_ride]
    · simp [runConf, passenger_confirm_start, isPassenger, hpass2]
    · simp [confStep, runConf, driver_start_ride]
    · simp [confStep, runConf, passenger_confirm_start, isPassenger, hpass2]
  · intro st p hst hd hp hpass
    have hpass2 : st.passengers.any (fun rec => rec.user == p) = true := by
      simpa [isPassenger] using hpass
    refine ⟨{ st with ride := { st.ride with passenger_started := true } },
      { st with ride :=
          { st.ride with
              driver_started := true
              passenger_started := true
              ride_status := .started } }, ?_, ?_, ?_, ?_, ?_, ?_⟩
    · simp [passenger_confirm_start, isPassenger, hpass2, hst, hp, hd, check_and_update_status]
    · exact hst
    · simp [driver_start_ride, hst, hd, check_and_update_status]
    · rfl
    · simp [runConf, driver_start_ride]
    · simp [runConf, passenger_confirm_start, isPassenger, hpass2]

/-- C4 witness: on the concrete created ride with passenger 1, driver
then passenger confirm start; the status flips to started at the second
call and both further start confirmations are rejected. -/
theorem confirmation_conflict_guards_witness :
    ∃ st1 st2,
      driver_start_ride exSt2J exSt2J.ride.creator = .ok st1 ∧
      st1.ride.ride_status = .created ∧
      passenger_confirm_start st1 1 = .ok st2 ∧
      st2.ride.ride_status = .started ∧
      runConf .driverStart st2 exSt2J.ride.creator = .error .wrongStatus ∧
      runConf .passengerStart st2 1 = .error .wrongStatus ∧
      confStep .driverStart exSt2J.ride.creator st2 = st2 ∧
      confStep .passengerStart 1 st2 = st2 :=
  confirmation_conflict_guards.2.1 exSt2J 1 (by rfl) (by rfl) (by rfl) (by rfl)



theorem find_replace_some (locs : LocTable) (u : Nat) (loc : LiveLocation)
    (h : List.any locs (fun e => e.1 == u) = true) :
    List.find? (fun e => e.1 == u)
        (List.map (fun e => if e.1 == u then (u, loc) else e) locs) = some (u, loc) := by
  induction locs with
  | nil => simp at h
  | cons x xs ih =>
    rw [List.map_cons]
    by_cases hx : x.1 = u
    · have hhead : (if x.1 == u then (u, loc) else x) = (u, loc) := by simp [hx]
      rw [hhead]
      exact List.find?_cons_of_pos _ (by simp)
    · have hhead : (if x.1 == u then (u, loc) else x) = x := by simp [hx]
      have h2 : List.any xs (fun e => e.1 == u) = true := by simpa [hx] using h
      rw [hhead, List.find?_cons_of_neg _ (by simp [hx])]
      exact ih h2

theorem find_append_self (locs : LocTable) (u : Nat) (loc : LiveLocation)
    (h : List.any locs (fun e => e.1 == u) = false) :
    List.find? (fun e => e.1 == u) (locs ++ [(u, loc)]) = some (u, loc) := by
  induction locs with
  | nil =>
    rw [List.nil_append]
    exact List.find?_cons_of_pos _ (by simp)
  | cons x xs ih =>
    simp only [List.any_cons, Bool.or_eq_false_iff] at h
    rw [List.cons_append, List.find?_cons_of_neg _ (by simp [h.1])]
    exact ih h.2

theorem lookupLoc_upsert_self (locs : LocTable) (u : Nat) (loc : LiveLocation) :
    lookupLoc (upsertLoc locs u loc) u = some loc := by
  unfold upsertLoc lookupLoc
  by_cases hany : List.any locs (fun e => e.1 == u) = true
  · rw [if_pos hany, find_replace_some locs u loc hany]
    rfl
  · have hany2 : List.any locs (fun e => e.1 == u) = false := Bool.eq_false_iff.mpr hany
    rw [if_neg hany, find_append_self locs u loc hany2]
    rfl

theorem find_replace_other (locs : LocTable) (u v : Nat) (loc : LiveLocation)
    (hne : v ≠ u) :
    List.find? (fun e => e.1 == v)
        (List.map (fun e => if e.1 == u then (u, loc) else e) locs) =
      List.find? (fun e => e.1 == v) locs := by
  induction locs with
  | nil => rfl
  | cons x xs ih =>
    rw [List.map_cons]
    by_cases hx : x.1 = u
    · have hhead : (if x.1 == u then (u, loc) else x) = (u, loc) := by simp [hx]
      rw [hhead, List.find?_cons_of_neg _ (by simp; omega),
        List.find?_cons_of_neg _ (by simp; omega)]
      exact ih
    · have hhead : (if x.1 == u then (u, loc) else x) = x := by simp [hx]
      by_cases hv : x.1 = v
      · rw [hhead, List.find?_cons_of_pos _ (by simp [hv]),
          List.find?_cons_of_pos _ (by simp [hv])]
      · rw [hhead, List.find?_cons_of_neg _ (by simp [hv]),
          List.find?_cons_of_neg _ (by simp [hv])]
        exact ih

theorem find_append_other (locs : LocTable) (u v : Nat) (loc : LiveLocation)
    (hne : v ≠ u) :
    List.find? (fun e => e.1 == v) (locs ++ [(u, loc)]) =
      List.find? (fun e => e.1 == v) locs := by
  induction locs with
  | nil =>
    rw [List.nil_append, List.find?_cons_of_neg _ (by simp; omega)]
  | cons x xs ih =>
    rw [List.cons_append]
    by_cases hv : x.1 = v
    · rw [List.find?_cons_of_pos _ (by simp [hv]), List.find?_cons_of_pos _ (by simp [hv])]
    · rw [List.find?_cons_of_neg _ (by simp [hv]), List.find?_cons_of_neg _ (by simp [hv])]
      exact ih

theorem lookupLoc_upsert_other (locs : LocTable) (u v : Nat) (loc : LiveLocation)
    (hne : v ≠ u) : lookupLoc (upsertLoc locs u loc) v = lookupLoc locs v := by
  unfold upsertLoc lookupLoc
  by_cases hany : List.any locs (fun e => e.1 == u) = true
  · rw [if_pos hany, find_replace_other locs u v loc hne]
  · rw [if_neg hany, find_append_other locs u v loc hne]

theorem keys_map_replace (locs : LocTable) (u : Nat) (loc : LiveLocation) :
    List.map Prod.fst (List.map (fun e => if e.1 == u then (u, loc) else e) locs) =
      List.map Prod.fst locs := by
  induction locs with
  | nil => rfl
  | cons x xs ih =>
    by_cases hx : x.1 = u
    · simp only [List.map_cons, ih]
      have hhead : (if x.1 == u then (u, loc) else x) = (u, loc) := by simp [hx]
      rw [hhead]
      simp [hx]
    · simp only [List.map_cons, ih]
      have hhead : (if x.1 == u then (u, loc) else x) = x := by simp [hx]
      rw [hhead]

theorem keys_upsert_nodup (locs : LocTable) (u : Nat) (loc : LiveLocation)
    (h : (List.map Prod.fst locs).Nodup) :
    (List.map Prod.fst (upsertLoc locs u loc)).Nodup := by
  unfold upsertLoc
  by_cases hany : List.any locs (fun e => e.1 == u) = true
  · rw [if_pos hany, keys_map_replace]
    exact h
  · rw [if_neg hany, List.map_append]
    rw [List.nodup_append]
    refine ⟨h, List.nodup_singleton _, ?_⟩
    intro k hk
    simp only [List.map_cons, List.map_nil, List.mem_singleton]
    intro hku
    obtain ⟨e, he, hke⟩ := List.mem_map.mp hk
    have hany2 : List.any locs (fun e => e.1 == u) = false := Bool.eq_false_iff.mpr hany
    rw [List.any_eq_false] at hany2
    have hcontra := hany2 e he
    simp [hke, hku] at hcontra

/-- C6 (corrected): get_location answers 403 whenever the requester is
not the creator; when the creator asks, a missing row or a row with
is_sharing false both come back as a 404, indistinguishable to the
caller; update_location by a non-passenger never returns a table, and
when its input fields are well-formed and name the ride it fails
specifically with the 403 not-a-passenger error.  The frozen claim said
a non-passenger always gets an Authorization failure, but the view
answers 400 for missing or malformed fields before it ever checks the
passenger table. -/
theorem location_gating :
    (∀ st requester target locs, st.ride.creator ≠ requester →
        get_location st requester target locs = .error .getNotDriver ∧
          locStatus .getNotDriver = 403)
    ∧ (∀ st target locs,
        (lookupLoc locs target = none ∨
          ∃ loc, lookupLoc locs target = some loc ∧ loc.is_sharing = false) →
        ∃ e, get_location st st.ride.creator target locs = .error e ∧ locStatus e = 404)
    ∧ (∀ st a inp locs locs2, isPassenger st a = false →
        update_location st a inp locs ≠ .ok locs2)
    ∧ (∀ st a rid lat lon sh locs, isPassenger st a = false → rid = st.ride.id →
        update_location st a ⟨some rid, some lat, some lon, sh⟩ locs =
            .error .updNotPassenger ∧
          locStatus .updNotPassenger = 403) := by
  refine ⟨?_, ?_, ?_, ?_⟩
  · intro st requester target locs hne
    exact ⟨by simp [get_location, hne], rfl⟩
  · intro st target locs hrow
    by_cases hpass : isPassenger st target = true
    · refine ⟨.notAvailable, ?_, rfl⟩
      rcases hrow with hnone | ⟨loc, hsome, hshare⟩
      · simp [get_location, hpass, hnone]
      · simp [get_location, hpass, hsome, hshare]
    · refine ⟨.getNotPassenger, ?_, rfl⟩
      have hpass2 : isPassenger st target = false := Bool.eq_false_iff.mpr hpass
      simp [get_location, hpass2]
  · intro st a inp locs locs2 hpass
    unfold update_location
    match hrid : inp.ride_id, hlat : inp.latitude, hlon : inp.longitude with
    | none, _, _ => simp
    | some rid, none, _ => simp
    | some rid, some lat, none => simp
    | some rid, some lat, some lon =>
      by_cases hr : rid = st.ride.id
      · simp [hr, hpass]
      · simp [hr]
  · intro st a rid lat lon sh locs hpass hrid
    exact ⟨by simp [update_location, hrid, hpass], rfl⟩

/-- C6 witness: a stranger to the concrete ride sending well-formed
coordinates is refused with the 403 not-a-passenger error. -/
theorem location_gating_witness :
    update_location exSt2 5 ⟨some 7, some 10, some 20, true⟩ [] =
        .error .updNotPassenger ∧
      locStatus .updNotPassenger = 403 :=
  location_gating.2.2.2 exSt2 5 7 10 20 true [] (by rfl) (by decide)

/-- C6 counterexample: the same non-passenger with a missing latitude
field is answered with the 400 validation error, not the 403
authorization error the frozen claim promises for every non-passenger
call. -/
theorem location_validation_counterexample :
    update_location exSt2 5 ⟨some 7, none, some 20, true⟩ [] = .error .missingFields ∧
      isPassenger exSt2 5 = false ∧
      locStatus .missingFields = 400 ∧
      LocError.missingFields ≠ LocError.updNotPassenger := by
  refine ⟨by rfl, by decide, by rfl, by decide⟩

/-- C7 (corrected): an unverified caller is rejected by join_ride and by
create_ride before any state is touched.  The frozen claim also listed
the two start-confirmation endpoints, but driver_start_ride and
passenger_confirm_start perform no verification check at all, so an
unverified driver can still start a ride. -/
theorem verification_gating :
    (∀ st a pp pn, join_ride st a false pp pn = .error .notVerified)
    ∧ (∀ c rid ts d vt vn, create_ride false c rid ts d vt vn = .error .notVerified) :=
  ⟨fun _ _ _ _ => rfl, fun _ _ _ _ _ _ => rfl⟩

/-- C7 counterexample: with every profile unverified, the driver of the
concrete created ride still confirms the start successfully and the
driver_started flag flips, because the confirmation views never consult
the verification flag. -/
theorem confirm_start_unverified_counterexample :
    allUnverified exSt2J.ride.creator = false ∧
      driver_start_ride exSt2J exSt2J.ride.creator =
        .ok { exSt2J with ride := { exSt2J.ride with driver_started := true } } ∧
      ({ exSt2J with ride := { exSt2J.ride with driver_started := true } } : RideState)
        ≠ exSt2J := by
  refine ⟨rfl, by rfl, by decide⟩

/-- C8 (confirmed): calculate_co2 is exactly the specified pure formula
solo = distance x factor / 1000, shared = solo / max(occupants, 1),
saved = solo - shared, with the dictionary factor when the vehicle type
is known and the petrol-car factor 120 otherwise; occupant_count is
max(totalSeats - seatsAvailable, 1); and the two worked examples from
the specification come out exactly: 1.44 / 0.72 / 0.72 kg with one
passenger aboard a four-seater, 1.44 / 0.36 / 1.08 kg with three. -/
theorem emission_calculator_spec :
    (∀ (d : ℚ) (occ : Int) (vt : String) (f : ℚ), EMISSION_FACTORS vt = some f →
        calculate_co2 d vt occ = co2_spec d f occ)
    ∧ (∀ (d : ℚ) (occ : Int) (vt : String), EMISSION_FACTORS vt = none →
        calculate_co2 d vt occ = co2_spec d 120 occ)
    ∧ (∀ r : Ride, occupant_count r = max (r.total_seats - r.seats_available) 1)
    ∧ occupant_count exRide4one = 2
    ∧ calculate_co2 12 "car_petrol" 2 = (144/100, 72/100, 72/100)
    ∧ occupant_count exRide4three = 4
    ∧ calculate_co2 12 "car_petrol" 4 = (144/100, 36/100, 108/100) := by
  refine ⟨?_, ?_, fun r => rfl, by decide, ?ex1, by decide, ?ex2⟩
  case ex1 => norm_num [calculate_co2, EMISSION_FACTORS]
  case ex2 => norm_num [calculate_co2, EMISSION_FACTORS]
  · intro d occ vt f hf
    unfold calculate_co2 co2_spec
    rw [hf]
    simp [Int.cast_max]
  · intro d occ vt hf
    unfold calculate_co2 co2_spec
    rw [hf]
    simp [Int.cast_max]

/-- C8 witness: the dictionary lookup hypothesis discharged for the bike
factor of zero. -/
theorem emission_calculator_spec_witness :
    calculate_co2 9 "bike" 3 = co2_spec 9 0 3 :=
  emission_calculator_spec.1 9 3 "bike" 0 (by rfl)

theorem joinCommit_fresh (st : RideState) (a : Nat) (v : Bool) (pp pn : String) :
    joinCommit st st.ride a v pp pn =
      match join_ride st a v pp pn with
      | .ok st2 => (st2, true)
      | .error _ => (st, false) := by
  by_cases h1 : v = true
  · by_cases h2 : st.ride.creator = a
    · simp [joinCommit, join_ride, h1, h2]
    · by_cases h3 : st.ride.seats_available ≤ 0
      · simp [joinCommit, join_ride, h1, h2, h3]
      · by_cases h4 : isPassenger st a = true
        · simp [joinCommit, join_ride, h1, h2, h3, h4]
        · by_cases h5 : strip pp = ""
          · simp [joinCommit, join_ride, h1, h2, h3, h4, h5]
          · simp [joinCommit, join_ride, h1, h2, h3, h4, h5]
  · simp [joinCommit, join_ride, h1]

/-- C9 (refuted by the race the code leaves open): two handlers that
both load the ride row while seats_available = 1 and then run the
join_ride checks and write against their stale copy both succeed, so
K = 1 free seat takes in 2 passengers and the seat count silently absorbs
the oversell; the specification requires exactly K of the racing calls
to succeed.  joinCommit is join_ride split at the snapshot boundary;
joinCommit_fresh shows it coincides with join_ride when the snapshot is
fresh. -/
theorem concurrent_join_oversells :
    exSt2.ride.seats_available = 1 ∧
      (joinCommit exSt2 exSt2.ride 1 true "A" "").2 = true ∧
      (joinCommit (joinCommit exSt2 exSt2.ride 1 true "A" "").1 exSt2.ride 2 true "B" "").2
        = true ∧
      (joinCommit (joinCommit exSt2 exSt2.ride 1 true "A" "").1 exSt2.ride 2 true "B"
        "").1.passengers.length = 2 ∧
      (joinCommit (joinCommit exSt2 exSt2.ride 1 true "A" "").1 exSt2.ride 2 true "B"
        "").1.ride.seats_available = 0 := by
  refine ⟨by decide, by decide, by decide, by decide, by decide⟩

/-- C10 (confirmed): update_location never looks at ride_status: for any
ride state whatsoever, a passenger posting well-formed coordinates for
the ride succeeds, the single row keyed by that user is created or
overwritten with the posted values, the rows of every other user are untouched,
and one-row-per-user uniqueness of the table is preserved. -/
theorem update_location_any_status (st : RideState) (a : Nat) (lat lon : ℚ) (sh : Bool)
    (locs : LocTable) (hp : isPassenger st a = true) :
    update_location st a ⟨some st.ride.id, some lat, some lon, sh⟩ locs =
        .ok (upsertLoc locs a ⟨st.ride.id, lat, lon, sh⟩) ∧
      lookupLoc (upsertLoc locs a ⟨st.ride.id, lat, lon, sh⟩) a =
        some ⟨st.ride.id, lat, lon, sh⟩ ∧
      (∀ v, v ≠ a → lookupLoc (upsertLoc locs a ⟨st.ride.id, lat, lon, sh⟩) v =
        lookupLoc locs v) ∧
      ((List.map Prod.fst locs).Nodup →
        (List.map Prod.fst (upsertLoc locs a ⟨st.ride.id, lat, lon, sh⟩)).Nodup) := by
  refine ⟨by simp [update_location, hp], lookupLoc_upsert_self locs a _, ?_, ?_⟩
  · intro v hv
    exact lookupLoc_upsert_other locs a v _ hv
  · intro hnd
    exact keys_upsert_nodup locs a _ hnd

/-- C10 witness: passenger 1 of the concrete started-or-not ride posts
coordinates into an empty table and the call succeeds with the fresh
row. -/
theorem update_location_any_status_witness :
    update_location exSt2J 1 ⟨some exSt2J.ride.id, some 10, some 20, true⟩ [] =
        .ok (upsertLoc [] 1 ⟨exSt2J.ride.id, 10, 20, true⟩) ∧
      lookupLoc (upsertLoc [] 1 ⟨exSt2J.ride.id, 10, 20, true⟩) 1 =
        some ⟨exSt2J.ride.id, 10, 20, true⟩ ∧
      (∀ v, v ≠ 1 → lookupLoc (upsertLoc [] 1 ⟨exSt2J.ride.id, 10, 20, true⟩) v =
        lookupLoc [] v) ∧
      ((List.map Prod.fst ([] : LocTable)).Nodup →
        (List.map Prod.fst (upsertLoc [] 1 ⟨exSt2J.ride.id, 10, 20, true⟩)).Nodup) :=
  update_location_any_status exSt2J 1 10 20 true [] (by rfl)
